import Mathlib

set_option maxHeartbeats 1000000

/-
Shallow embedding of internal/geoipupdate/database/s3_file_writer.go.

The S3 client, the filesystem and the caller-supplied reader are external
collaborators; their behaviour in one attempt is captured by an environment
record of outcomes, and each operation of the writer is a pure function of
that environment that returns its Go result together with the trace of the
external effects it performed, in order.
-/

namespace S3Writer

/-- DateModifiedTag is the name of the tag on an S3 bucket for storing the
modified date information received from the MaxMind servers (constant of the
source file). -/
def DateModifiedTag : String := "DateOfSourceDatabaseModification"

/-- Modelled from the spec: ZeroMD5 is referenced by the source but declared
outside src; it is the well-known all-zero sentinel hash meaning that no
content exists yet. -/
def ZeroMD5 : String := "00000000000000000000000000000000"

/-- Modelled from the spec: the canonical extension appended to an edition
identifier to form the remote key; the constant is declared outside src (the
spec gives the example canonical extension .mmdb). -/
def extension : String := ".mmdb"

/-- Modelled from the spec: the staging suffix appended to the temp path; the
constant is declared outside src. -/
def tempExtension : String := ".temporary"

/-- Go error values as built by the source: a base error, fmt.Errorf wrapping
an inner error with a context, and errors.Join of two errors. -/
inductive GoError where
  | base (msg : String)
  | wrap (ctx : String) (e : GoError)
  | join (e1 e2 : GoError)
  deriving Repr, DecidableEq

/-- The rendered message of an error, as Go renders wrapped and joined errors. -/
def GoError.message : GoError → String
  | .base m => m
  | .wrap ctx e => ctx ++ ": " ++ e.message
  | .join e1 e2 => e1.message ++ "\n" ++ e2.message

/-- errors.Join applied to the named return err (possibly nil) and a non-nil
cleanup error, as in the deferred blocks of Write. -/
def joinErr : Option GoError → GoError → GoError
  | none, e2 => e2
  | some e1, e2 => .join e1 e2

/-- Structural containment of one error inside another: wrapping and joining
preserve every contained error. -/
def GoError.hasSub : GoError → GoError → Bool
  | e@(.base _), sub => e == sub
  | e@(.wrap _ inner), sub => e == sub || inner.hasSub sub
  | e@(.join a b), sub => e == sub || a.hasSub sub || b.hasSub sub

/-- The resource handles acquired during an attempt. -/
inductive Handle where
  | inputReader
  | stagedFileWriter
  | tempReadHandle
  | remoteBody
  deriving Repr, DecidableEq

/-- Externally observable effects of one attempt, in order of occurrence. -/
inductive Event where
  | getObjectCall (bucket key : String)
  | putObjectCall (bucket key sse : String) (tagging : Option String) (bodyPath : String)
  | createFile (path : String)
  | stagingWrite (path : String)
  | deleteFile (path : String)
  | acquire (h : Handle)
  | release (h : Handle)
  | readerDrain
  deriving Repr, DecidableEq

/-- The writer configuration; the s3Client field of the source is the external
collaborator represented by the outcome environments below. -/
structure S3DatabaseWriter where
  s3Bucket : String
  disableEncryption : Bool
  verbose : Bool
  deriving Repr, DecidableEq

/-- NewS3DatabaseWriter builds the writer; the source always returns a nil
error alongside it. -/
def NewS3DatabaseWriter (s3Bucket : String) (verbose : Bool) :
    S3DatabaseWriter × Option GoError :=
  ({ s3Bucket := s3Bucket, disableEncryption := false, verbose := verbose }, none)

/-- getObjectKey maps an edition identifier to its canonical remote key. -/
def getObjectKey (editionID : String) : String :=
  editionID ++ extension

/-- The temp staging path: path.Join of tmp and the key, plus the staging
suffix. -/
def tempFilePath (editionID : String) : String :=
  "tmp/" ++ getObjectKey editionID ++ tempExtension

/-- Outcome of the single GetObject call made by GetHash: a response whose
ETag pointer may be nil, a NoSuchKey error, or any other error. -/
inductive GetObjectOutcome where
  | success (etag : Option String)
  | noSuchKey
  | otherError (e : GoError)
  deriving Repr, DecidableEq

/-- Result of GetHash: the returned pair of string and nil error, the pair of
empty string and non-nil error, or a runtime panic. -/
inductive GetHashResult where
  | ok (hash : String)
  | err (ret : String) (e : GoError)
  | panic
  deriving Repr, DecidableEq

/-- GetHash queries the bucket for the object at the canonical key and returns
its ETag; NoSuchKey maps to the ZeroMD5 sentinel with nil error, any other
error is wrapped and returned. On success the source dereferences
response.ETag with no nil check (the panic result) and the response body
handle is acquired. -/
def GetHash (writer : S3DatabaseWriter) (outcome : GetObjectOutcome)
    (editionID : String) : GetHashResult × List Event :=
  let objectKey := getObjectKey editionID
  match outcome with
  | .noSuchKey =>
      (.ok ZeroMD5, [Event.getObjectCall writer.s3Bucket objectKey])
  | .otherError e =>
      (.err ""
        (.wrap ("failed to Get Object " ++ objectKey ++ " in bucket " ++ writer.s3Bucket) e),
       [Event.getObjectCall writer.s3Bucket objectKey])
  | .success none =>
      (.panic,
       [Event.getObjectCall writer.s3Bucket objectKey, Event.acquire Handle.remoteBody])
  | .success (some etag) =>
      (.ok etag,
       [Event.getObjectCall writer.s3Bucket objectKey, Event.acquire Handle.remoteBody])

/-- The characters of a string mapped to lower case, for the case-insensitive
hash comparison. -/
def lowerChars (s : String) : List Char := s.data.map Char.toLower

/-- Modelled from the spec: fileWriter.validateHash is declared outside src;
per the spec it compares the computed hash of the staged file against the
expected hash case-insensitively and reports a hash mismatch error when they
differ. -/
def validateHash (stagedHash expected : String) : Option GoError :=
  if lowerChars stagedHash = lowerChars expected then none
  else some (.base "hash mismatch")

/-- Outcomes of the external operations performed during one Write attempt:
errors of newFileWriter, of the staging copy, of the two closes, of the temp
file open, of PutObject and of the reader close, plus the computed hash of
the staged bytes. -/
structure WriteEnv where
  newFileWriterErr : Option GoError := none
  fwWriteErr : Option GoError := none
  stagedHash : String := ""
  fwCloseErr : Option GoError := none
  openTempErr : Option GoError := none
  putObjectErr : Option GoError := none
  s3BodyCloseErr : Option GoError := none
  readerCloseErr : Option GoError := none
  deriving Repr, DecidableEq

/-- The deferred fw.close block: a close failure is joined onto the named
return err with its wrap context. -/
def fwClose (env : WriteEnv) (err : Option GoError) : Option GoError :=
  match env.fwCloseErr with
  | none => err
  | some ce => some (joinErr err (.wrap "closing file writer" ce))

/-- The deferred s3Body.Close block. -/
def s3BodyClose (env : WriteEnv) (err : Option GoError) : Option GoError :=
  match env.s3BodyCloseErr with
  | none => err
  | some ce => some (joinErr err (.wrap "closing file reader" ce))

/-- The deferred reader close block (the drain of the reader ignores its own
error; the close failure is joined with the edition in its context). -/
def readerClose (editionID : String) (env : WriteEnv) (err : Option GoError) :
    Option GoError :=
  match env.readerCloseErr with
  | none => err
  | some ce => some (joinErr err (.wrap ("closing reader for " ++ editionID) ce))

/-- Write stages the reader to the temp file, validates the staged hash
against newMD5, opens the staged file and uploads it with PutObject; the
deferred blocks run in last-in first-out order on every return path. The
final time.Time parameter of the source is bound to the blank identifier. -/
def Write (w : S3DatabaseWriter) (env : WriteEnv) (editionID newMD5 : String)
    (_modTime : Nat) : Option GoError × List Event :=
  let key := getObjectKey editionID
  let tempFile := tempFilePath editionID
  match env.newFileWriterErr with
  | some e =>
      (readerClose editionID env
         (some (GoError.wrap ("setting up database writer for " ++ editionID) e)),
       [Event.readerDrain, Event.release Handle.inputReader])
  | none =>
      match env.fwWriteErr with
      | some e =>
          (readerClose editionID env (fwClose env
             (some (GoError.wrap ("writing to the temp file for " ++ editionID) e))),
           [Event.createFile tempFile, Event.acquire Handle.stagedFileWriter,
            Event.release Handle.stagedFileWriter,
            Event.readerDrain, Event.release Handle.inputReader])
      | none =>
          match validateHash env.stagedHash newMD5 with
          | some e =>
              (readerClose editionID env (fwClose env
                 (some (GoError.wrap ("validating hash for " ++ editionID) e))),
               [Event.createFile tempFile, Event.acquire Handle.stagedFileWriter,
                Event.stagingWrite tempFile,
                Event.release Handle.stagedFileWriter,
                Event.readerDrain, Event.release Handle.inputReader])
          | none =>
              match env.openTempErr with
              | some e =>
                  (readerClose editionID env (fwClose env
                     (some (GoError.wrap ("opening temp file to read for " ++ editionID) e))),
                   [Event.createFile tempFile, Event.acquire Handle.stagedFileWriter,
                    Event.stagingWrite tempFile,
                    Event.release Handle.stagedFileWriter,
                    Event.readerDrain, Event.release Handle.inputReader])
              | none =>
                  let sse := if w.disableEncryption then "" else "AES256"
                  match env.putObjectErr with
                  | some e =>
                      (readerClose editionID env (fwClose env (s3BodyClose env
                         (some (GoError.wrap "encountered an error writing file to S3" e)))),
                       [Event.createFile tempFile, Event.acquire Handle.stagedFileWriter,
                        Event.stagingWrite tempFile,
                        Event.acquire Handle.tempReadHandle,
                        Event.putObjectCall w.s3Bucket key sse none tempFile,
                        Event.release Handle.tempReadHandle,
                        Event.release Handle.stagedFileWriter,
                        Event.readerDrain, Event.release Handle.inputReader])
                  | none =>
                      (readerClose editionID env (fwClose env (s3BodyClose env none)),
                       [Event.createFile tempFile, Event.acquire Handle.stagedFileWriter,
                        Event.stagingWrite tempFile,
                        Event.acquire Handle.tempReadHandle,
                        Event.putObjectCall w.s3Bucket key sse none tempFile,
                        Event.release Handle.tempReadHandle,
                        Event.release Handle.stagedFileWriter,
                        Event.readerDrain, Event.release Handle.inputReader])

/-- Whether a trace contains a PutObject call. -/
def isPutEvent : Event → Bool
  | .putObjectCall _ _ _ _ _ => true
  | _ => false

/-- Whether any PutObject call occurs in a trace. -/
def hasPutCall (tr : List Event) : Bool := tr.any isPutEvent

/-- Whether an event deletes a file. -/
def isDeleteEvent : Event → Bool
  | .deleteFile _ => true
  | _ => false

/-- Whether any file deletion occurs in a trace. -/
def hasDelete (tr : List Event) : Bool := tr.any isDeleteEvent

/-- Whether some PutObject call in the trace carries a non-nil tagging. -/
def putWithTagging (tr : List Event) : Bool :=
  tr.any fun ev =>
    match ev with
    | .putObjectCall _ _ _ (some _) _ => true
    | _ => false

/-- Whether the given handle is acquired somewhere in the trace. -/
def hasAcquire (h : Handle) (tr : List Event) : Bool :=
  tr.any fun ev => ev == Event.acquire h

/-- Whether the given handle is released somewhere in the trace. -/
def hasRelease (h : Handle) (tr : List Event) : Bool :=
  tr.any fun ev => ev == Event.release h

/-- Whether the last two events of the trace are the reader drain followed by
the reader release. -/
def endsWithReaderCleanup (tr : List Event) : Bool :=
  match tr.reverse with
  | Event.release Handle.inputReader :: Event.readerDrain :: _ => true
  | _ => false

/-- Whether an optional error structurally contains the given error. -/
def errContains (o : Option GoError) (sub : GoError) : Bool :=
  match o with
  | none => false
  | some r => r.hasSub sub

/-- Whether the character list hay begins with the character list needle. -/
def startsWithChars : List Char → List Char → Bool
  | _, [] => true
  | [], _ :: _ => false
  | h :: hs, n :: ns => h == n && startsWithChars hs ns

/-- Whether the character list needle occurs contiguously inside hay. -/
def containsChars : List Char → List Char → Bool
  | [], needle => startsWithChars [] needle
  | h :: hs, needle => startsWithChars (h :: hs) needle || containsChars hs needle

/-- Whether the string needle occurs inside the string hay. -/
def strContains (hay needle : String) : Bool :=
  containsChars hay.data needle.data

end S3Writer

namespace S3Writer

theorem startsWithChars_self (xs : List Char) : startsWithChars xs xs = true := by
  induction xs with
  | nil => rfl
  | cons x xs ih => simp [startsWithChars, ih]

theorem startsWithChars_append (xs ys n : List Char)
    (h : startsWithChars xs n = true) : startsWithChars (xs ++ ys) n = true := by
  induction n generalizing xs with
  | nil => simp [startsWithChars]
  | cons m ms ih =>
    cases xs with
    | nil => simp [startsWithChars] at h
    | cons x xs =>
      simp [startsWithChars] at h ⊢
      exact ⟨h.1, ih xs h.2⟩

theorem containsChars_nil_needle (ys : List Char) : containsChars ys [] = true := by
  cases ys <;> simp [containsChars, startsWithChars]

theorem containsChars_of_starts (hay n : List Char)
    (h : startsWithChars hay n = true) : containsChars hay n = true := by
  cases hay with
  | nil => simpa [containsChars] using h
  | cons x xs => simp [containsChars, h]

theorem containsChars_self (n : List Char) : containsChars n n = true :=
  containsChars_of_starts n n (startsWithChars_self n)

theorem containsChars_append_right (xs ys n : List Char)
    (h : containsChars ys n = true) : containsChars (xs ++ ys) n = true := by
  induction xs with
  | nil => simpa using h
  | cons x xs ih =>
    rw [List.cons_append, containsChars]
    simp [ih]

theorem containsChars_append_left (xs ys n : List Char)
    (h : containsChars xs n = true) : containsChars (xs ++ ys) n = true := by
  induction xs with
  | nil =>
    simp [containsChars] at h
    cases n with
    | nil => exact containsChars_nil_needle ys
    | cons m ms => simp [startsWithChars] at h
  | cons x xs ih =>
    rw [containsChars] at h
    rw [List.cons_append, containsChars]
    rcases Bool.or_eq_true_iff.mp h with h1 | h2
    · exact Bool.or_eq_true_iff.mpr (Or.inl (startsWithChars_append _ _ _ h1))
    · exact Bool.or_eq_true_iff.mpr (Or.inr (ih h2))

theorem strData_append (a b : String) : (a ++ b).data = a.data ++ b.data := by
  cases a; cases b; rfl

theorem strContains_append_left (a b n : String)
    (h : strContains a n = true) : strContains (a ++ b) n = true := by
  unfold strContains at h ⊢
  rw [strData_append]
  exact containsChars_append_left _ _ _ h

theorem strContains_append_right (a b n : String)
    (h : strContains b n = true) : strContains (a ++ b) n = true := by
  unfold strContains at h ⊢
  rw [strData_append]
  exact containsChars_append_right _ _ _ h

theorem strContains_self (n : String) : strContains n n = true :=
  containsChars_self n.data

theorem hasSub_self (e : GoError) : e.hasSub e = true := by
  cases e <;> simp [GoError.hasSub]

theorem hasSub_wrap (ctx : String) (e sub : GoError)
    (h : e.hasSub sub = true) : (GoError.wrap ctx e).hasSub sub = true := by
  simp [GoError.hasSub, h]

theorem hasSub_join_left (a b sub : GoError)
    (h : a.hasSub sub = true) : (GoError.join a b).hasSub sub = true := by
  simp [GoError.hasSub, h]

theorem hasSub_join_right (a b sub : GoError)
    (h : b.hasSub sub = true) : (GoError.join a b).hasSub sub = true := by
  simp [GoError.hasSub, h]

theorem fwClose_isSome (env : WriteEnv) (err : Option GoError)
    (h : err.isSome = true) : (fwClose env err).isSome = true := by
  unfold fwClose
  cases env.fwCloseErr <;> simp [h]

theorem s3BodyClose_isSome (env : WriteEnv) (err : Option GoError)
    (h : err.isSome = true) : (s3BodyClose env err).isSome = true := by
  unfold s3BodyClose
  cases env.s3BodyCloseErr <;> simp [h]

theorem readerClose_isSome (editionID : String) (env : WriteEnv) (err : Option GoError)
    (h : err.isSome = true) : (readerClose editionID env err).isSome = true := by
  unfold readerClose
  cases env.readerCloseErr <;> simp [h]

theorem errContains_fwClose (env : WriteEnv) (err : Option GoError) (sub : GoError)
    (h : errContains err sub = true) : errContains (fwClose env err) sub = true := by
  unfold fwClose
  cases err with
  | none => simp [errContains] at h
  | some r =>
    cases env.fwCloseErr with
    | none => exact h
    | some ce =>
      simp [errContains, joinErr] at h ⊢
      exact hasSub_join_left _ _ _ h

theorem errContains_s3BodyClose (env : WriteEnv) (err : Option GoError) (sub : GoError)
    (h : errContains err sub = true) : errContains (s3BodyClose env err) sub = true := by
  unfold s3BodyClose
  cases err with
  | none => simp [errContains] at h
  | some r =>
    cases env.s3BodyCloseErr with
    | none => exact h
    | some ce =>
      simp [errContains, joinErr] at h ⊢
      exact hasSub_join_left _ _ _ h

theorem errContains_readerClose (editionID : String) (env : WriteEnv)
    (err : Option GoError) (sub : GoError)
    (h : errContains err sub = true) :
    errContains (readerClose editionID env err) sub = true := by
  unfold readerClose
  cases err with
  | none => simp [errContains] at h
  | some r =>
    cases env.readerCloseErr with
    | none => exact h
    | some ce =>
      simp [errContains, joinErr] at h ⊢
      exact hasSub_join_left _ _ _ h

theorem mention_wrap_ctx (c editionID : String) (e : GoError) :
    strContains (GoError.message (GoError.wrap (c ++ editionID) e)) editionID = true := by
  show strContains (((c ++ editionID) ++ ": ") ++ e.message) editionID = true
  exact strContains_append_left _ _ _ (strContains_append_left _ _ _
    (strContains_append_right _ _ _ (strContains_self editionID)))

theorem mention_readerClose_some (editionID : String) (env : WriteEnv) (e r : GoError)
    (hres : readerClose editionID env (some e) = some r)
    (hm : strContains e.message editionID = true) :
    strContains r.message editionID = true := by
  unfold readerClose at hres
  cases hrc : env.readerCloseErr with
  | none =>
    rw [hrc] at hres
    cases hres
    exact hm
  | some ce =>
    rw [hrc] at hres
    cases hres
    show strContains ((e.message ++ "\n") ++ _) editionID = true
    exact strContains_append_left _ _ _ (strContains_append_left _ _ _ hm)

theorem mention_readerClose_none (editionID : String) (env : WriteEnv) (r : GoError)
    (hres : readerClose editionID env none = some r) :
    strContains r.message editionID = true := by
  unfold readerClose at hres
  cases hrc : env.readerCloseErr with
  | none =>
    rw [hrc] at hres
    cases hres
  | some ce =>
    rw [hrc] at hres
    cases hres
    show strContains ((("closing reader for " ++ editionID) ++ ": ") ++ ce.message)
      editionID = true
    exact strContains_append_left _ _ _ (strContains_append_left _ _ _
      (strContains_append_right _ _ _ (strContains_self editionID)))

end S3Writer

namespace S3Writer

/-- Claim C1: the PutObject upload happens only after both the staging write
and the hash validation succeed; on a hash mismatch or a staging error, Write
returns an error and no upload call appears in the trace. -/
theorem write_no_upload_without_validation
    (w : S3DatabaseWriter) (env : WriteEnv) (editionID newMD5 : String) (t : Nat)
    (h : env.newFileWriterErr.isSome = true ∨ env.fwWriteErr.isSome = true ∨
         lowerChars env.stagedHash ≠ lowerChars newMD5) :
    (Write w env editionID newMD5 t).1.isSome = true ∧
    hasPutCall (Write w env editionID newMD5 t).2 = false := by
  cases hnfw : env.newFileWriterErr with
  | some e =>
    refine ⟨?_, ?_⟩
    · simp only [Write, hnfw]
      exact readerClose_isSome _ _ _ rfl
    · simp [Write, hnfw, hasPutCall, isPutEvent]
  | none =>
    cases hfww : env.fwWriteErr with
    | some e =>
      refine ⟨?_, ?_⟩
      · simp only [Write, hnfw, hfww]
        exact readerClose_isSome _ _ _ (fwClose_isSome _ _ rfl)
      · simp [Write, hnfw, hfww, hasPutCall, isPutEvent]
    | none =>
      have hmm : lowerChars env.stagedHash ≠ lowerChars newMD5 := by
        rcases h with h | h | h
        · rw [hnfw] at h; simp at h
        · rw [hfww] at h; simp at h
        · exact h
      have hv : validateHash env.stagedHash newMD5 = some (.base "hash mismatch") := by
        unfold validateHash
        rw [if_neg hmm]
      refine ⟨?_, ?_⟩
      · simp only [Write, hnfw, hfww, hv]
        exact readerClose_isSome _ _ _ (fwClose_isSome _ _ rfl)
      · simp [Write, hnfw, hfww, hv, hasPutCall, isPutEvent]

/-- Witness for C1 at a concrete mismatching input. -/
theorem write_no_upload_without_validation_witness :
    (Write ⟨"bucket", false, false⟩ { stagedHash := "aa" } "GeoLite2-City" "bb" 0).1.isSome
      = true ∧
    hasPutCall (Write ⟨"bucket", false, false⟩ { stagedHash := "aa" } "GeoLite2-City" "bb" 0).2
      = false :=
  write_no_upload_without_validation _ _ _ _ _ (Or.inr (Or.inr (by decide)))

/-- Claim C2: GetHash maps a NoSuchKey outcome to the ZeroMD5 sentinel with a
nil error, maps every other retrieval failure to a wrapped error with an empty
returned string, and on a successful response returns the ETag. -/
theorem getHash_distinguishes_absence_from_failure
    (w : S3DatabaseWriter) (editionID : String) :
    (GetHash w GetObjectOutcome.noSuchKey editionID).1 = GetHashResult.ok ZeroMD5 ∧
    (∀ e : GoError,
      (GetHash w (GetObjectOutcome.otherError e) editionID).1 =
        GetHashResult.err ""
          (GoError.wrap
            ("failed to Get Object " ++ getObjectKey editionID ++ " in bucket " ++ w.s3Bucket)
            e)) ∧
    (∀ etag : String,
      (GetHash w (GetObjectOutcome.success (some etag)) editionID).1 =
        GetHashResult.ok etag) :=
  ⟨rfl, fun _ => rfl, fun _ => rfl⟩

/-- Counterexample to claim C3: a fully successful Write uploads the object
with a nil tagging, so the remote object is not tagged with the expected hash
nor with the DateModifiedTag provenance tag. -/
theorem write_successful_upload_untagged_cex :
    (Write ⟨"bucket", false, false⟩ { stagedHash := "abc" } "GeoLite2-City" "abc" 0).1
      = none ∧
    Event.putObjectCall "bucket" "GeoLite2-City.mmdb" "AES256" none
        "tmp/GeoLite2-City.mmdb.temporary"
      ∈ (Write ⟨"bucket", false, false⟩ { stagedHash := "abc" } "GeoLite2-City" "abc" 0).2 ∧
    putWithTagging
      (Write ⟨"bucket", false, false⟩ { stagedHash := "abc" } "GeoLite2-City" "abc" 0).2
      = false := by
  decide

/-- Claim C3 as amended: Write never attaches any tagging to the uploaded
object and ignores its modification-time argument entirely. -/
theorem write_never_tags_and_ignores_modtime
    (w : S3DatabaseWriter) (env : WriteEnv) (editionID newMD5 : String) (t t1 t2 : Nat) :
    putWithTagging (Write w env editionID newMD5 t).2 = false ∧
    Write w env editionID newMD5 t1 = Write w env editionID newMD5 t2 := by
  refine ⟨?_, rfl⟩
  cases hnfw : env.newFileWriterErr with
  | some e => simp [Write, hnfw, putWithTagging]
  | none =>
    cases hfww : env.fwWriteErr with
    | some e => simp [Write, hnfw, hfww, putWithTagging]
    | none =>
      cases hv : validateHash env.stagedHash newMD5 with
      | some e => simp [Write, hnfw, hfww, hv, putWithTagging]
      | none =>
        cases hote : env.openTempErr with
        | some e => simp [Write, hnfw, hfww, hv, hote, putWithTagging]
        | none =>
          cases hpo : env.putObjectErr with
          | some e => simp [Write, hnfw, hfww, hv, hote, hpo, putWithTagging]
          | none => simp [Write, hnfw, hfww, hv, hote, hpo, putWithTagging]

/-- Claim C4 at the failing input: a successful GetHash acquires the remote
response body handle and never releases it, so the remote read handle leaks. -/
theorem getHash_remote_body_not_released :
    hasAcquire Handle.remoteBody
      (GetHash ⟨"bucket", false, false⟩ (GetObjectOutcome.success (some "0abc"))
        "GeoLite2-City").2 = true ∧
    hasRelease Handle.remoteBody
      (GetHash ⟨"bucket", false, false⟩ (GetObjectOutcome.success (some "0abc"))
        "GeoLite2-City").2 = false := by
  decide

/-- Claim C5: on every outcome the trace of Write ends with the reader drain
followed by the reader close, so the input stream is fully drained and then
closed before Write returns. -/
theorem write_reader_drained_then_closed
    (w : S3DatabaseWriter) (env : WriteEnv) (editionID newMD5 : String) (t : Nat) :
    endsWithReaderCleanup (Write w env editionID newMD5 t).2 = true := by
  cases hnfw : env.newFileWriterErr with
  | some e => simp only [Write, hnfw]; rfl
  | none =>
    cases hfww : env.fwWriteErr with
    | some e => simp only [Write, hnfw, hfww]; rfl
    | none =>
      cases hv : validateHash env.stagedHash newMD5 with
      | some e => simp only [Write, hnfw, hfww, hv]; rfl
      | none =>
        cases hote : env.openTempErr with
        | some e => simp only [Write, hnfw, hfww, hv, hote]; rfl
        | none =>
          cases hpo : env.putObjectErr with
          | some e => simp only [Write, hnfw, hfww, hv, hote, hpo]; rfl
          | none => simp only [Write, hnfw, hfww, hv, hote, hpo]; rfl

/-- Claim C6: no execution of Write deletes any file, and whenever staging
started (newFileWriter succeeded) the staged temp file was created and is
still present at return, in particular when the upload fails afterwards. -/
theorem write_preserves_staged_temp_file
    (w : S3DatabaseWriter) (env : WriteEnv) (editionID newMD5 : String) (t : Nat) :
    hasDelete (Write w env editionID newMD5 t).2 = false ∧
    (env.newFileWriterErr = none →
      Event.createFile (tempFilePath editionID) ∈ (Write w env editionID newMD5 t).2) := by
  cases hnfw : env.newFileWriterErr with
  | some e =>
    exact ⟨by simp [Write, hnfw, hasDelete, isDeleteEvent], fun hc => nomatch hc⟩
  | none =>
    cases hfww : env.fwWriteErr with
    | some e =>
      exact ⟨by simp [Write, hnfw, hfww, hasDelete, isDeleteEvent],
        fun _ => by simp [Write, hnfw, hfww]⟩
    | none =>
      cases hv : validateHash env.stagedHash newMD5 with
      | some e =>
        exact ⟨by simp [Write, hnfw, hfww, hv, hasDelete, isDeleteEvent],
          fun _ => by simp [Write, hnfw, hfww, hv]⟩
      | none =>
        cases hote : env.openTempErr with
        | some e =>
          exact ⟨by simp [Write, hnfw, hfww, hv, hote, hasDelete, isDeleteEvent],
            fun _ => by simp [Write, hnfw, hfww, hv, hote]⟩
        | none =>
          cases hpo : env.putObjectErr with
          | some e =>
            exact ⟨by simp [Write, hnfw, hfww, hv, hote, hpo, hasDelete, isDeleteEvent],
              fun _ => by simp [Write, hnfw, hfww, hv, hote, hpo]⟩
          | none =>
            exact ⟨by simp [Write, hnfw, hfww, hv, hote, hpo, hasDelete, isDeleteEvent],
              fun _ => by simp [Write, hnfw, hfww, hv, hote, hpo]⟩

/-- Witness for C6: the upload fails after staging and validation succeeded,
and the staged temp file was created while nothing was deleted. -/
theorem write_preserves_staged_temp_file_witness :
    hasDelete (Write ⟨"bucket", false, false⟩
      { stagedHash := "abc", putObjectErr := some (GoError.base "network down") }
      "GeoLite2-City" "abc" 0).2 = false ∧
    Event.createFile (tempFilePath "GeoLite2-City") ∈
      (Write ⟨"bucket", false, false⟩
        { stagedHash := "abc", putObjectErr := some (GoError.base "network down") }
        "GeoLite2-City" "abc" 0).2 :=
  ⟨(write_preserves_staged_temp_file _ _ _ _ _).1,
   (write_preserves_staged_temp_file _ _ _ _ _).2 rfl⟩

/-- Claim C7: the constructor initializes the writer with encryption enabled,
and every upload carries server-side encryption AES256 unless the
disable-encryption flag is set, in which case the encryption field is empty. -/
theorem write_encryption_default_aes256
    (b : String) (v : Bool) (w : S3DatabaseWriter) (env : WriteEnv)
    (editionID newMD5 : String) (t : Nat) :
    (NewS3DatabaseWriter b v).1.disableEncryption = false ∧
    (env.newFileWriterErr = none → env.fwWriteErr = none →
     validateHash env.stagedHash newMD5 = none → env.openTempErr = none →
     Event.putObjectCall w.s3Bucket (getObjectKey editionID)
       (if w.disableEncryption then "" else "AES256") none (tempFilePath editionID)
       ∈ (Write w env editionID newMD5 t).2) := by
  refine ⟨rfl, fun h1 h2 h3 h4 => ?_⟩
  cases hpo : env.putObjectErr with
  | some e => simp [Write, h1, h2, h3, h4, hpo]
  | none => simp [Write, h1, h2, h3, h4, hpo]

/-- Witness for C7 at a concrete successful upload with the default flag. -/
theorem write_encryption_default_aes256_witness :
    (NewS3DatabaseWriter "bucket" false).1.disableEncryption = false ∧
    Event.putObjectCall "bucket" (getObjectKey "GeoLite2-City") "AES256" none
        (tempFilePath "GeoLite2-City")
      ∈ (Write ⟨"bucket", false, false⟩ { stagedHash := "abc" }
          "GeoLite2-City" "abc" 0).2 :=
  ⟨(write_encryption_default_aes256 "bucket" false ⟨"bucket", false, false⟩
      { stagedHash := "abc" } "GeoLite2-City" "abc" 0).1,
   by simpa using (write_encryption_default_aes256 "bucket" false ⟨"bucket", false, false⟩
      { stagedHash := "abc" } "GeoLite2-City" "abc" 0).2 rfl rfl (by decide) rfl⟩

/-- Claim C8: cleanup failures encountered during unwind are aggregated with
the primary error and with each other; with a staging-write failure plus both
later close failures all three are contained in the returned error, and with
an upload failure plus the temp-file read close failure both are contained. -/
theorem write_aggregates_cleanup_errors
    (w : S3DatabaseWriter) (editionID newMD5 : String) (e ce1 ce2 : GoError) :
    (errContains (Write w
        { fwWriteErr := some e, fwCloseErr := some ce1, readerCloseErr := some ce2 }
        editionID newMD5 0).1 e = true ∧
     errContains (Write w
        { fwWriteErr := some e, fwCloseErr := some ce1, readerCloseErr := some ce2 }
        editionID newMD5 0).1 ce1 = true ∧
     errContains (Write w
        { fwWriteErr := some e, fwCloseErr := some ce1, readerCloseErr := some ce2 }
        editionID newMD5 0).1 ce2 = true) ∧
    (errContains (Write w
        { stagedHash := newMD5, putObjectErr := some e, s3BodyCloseErr := some ce1 }
        editionID newMD5 0).1 e = true ∧
     errContains (Write w
        { stagedHash := newMD5, putObjectErr := some e, s3BodyCloseErr := some ce1 }
        editionID newMD5 0).1 ce1 = true) := by
  refine ⟨⟨?_, ?_, ?_⟩, ?_, ?_⟩
  · simp only [Write, fwClose, readerClose, joinErr, errContains]
    exact hasSub_join_left _ _ _ (hasSub_join_left _ _ _
      (hasSub_wrap _ _ _ (hasSub_self e)))
  · simp only [Write, fwClose, readerClose, joinErr, errContains]
    exact hasSub_join_left _ _ _ (hasSub_join_right _ _ _
      (hasSub_wrap _ _ _ (hasSub_self ce1)))
  · simp only [Write, fwClose, readerClose, joinErr, errContains]
    exact hasSub_join_right _ _ _ (hasSub_wrap _ _ _ (hasSub_self ce2))
  · simp only [Write, validateHash, if_pos rfl, fwClose, s3BodyClose, readerClose,
      joinErr, errContains]
    exact hasSub_join_left _ _ _ (hasSub_wrap _ _ _ (hasSub_self e))
  · simp only [Write, validateHash, if_pos rfl, fwClose, s3BodyClose, readerClose,
      joinErr, errContains]
    exact hasSub_join_right _ _ _ (hasSub_wrap _ _ _ (hasSub_self ce1))

/-- Counterexample to claim C9: when only the remote upload fails, the error
returned by Write carries no edition identifier in its message. -/
theorem write_upload_error_lacks_edition_cex :
    (Write ⟨"bucket", false, false⟩
        { stagedHash := "abc", putObjectErr := some (GoError.base "timeout") }
        "GeoLite2-City" "abc" 0).1 =
      some (GoError.wrap "encountered an error writing file to S3"
        (GoError.base "timeout")) ∧
    strContains
      (GoError.message (GoError.wrap "encountered an error writing file to S3"
        (GoError.base "timeout")))
      "GeoLite2-City" = false := by
  decide

/-- Claim C9 as amended: every error surfaced by Write from the staging
setup, temp-file write, hash validation, temp-file open and reader close
steps mentions the edition identifier, and every GetHash retrieval error
mentions the edition identifier through the object key; only the remote
upload error and the inner close errors carry operation context without it. -/
theorem write_nonupload_errors_mention_edition :
    (∀ (w : S3DatabaseWriter) (env : WriteEnv) (editionID newMD5 : String)
       (t : Nat) (r : GoError),
      env.putObjectErr = none → env.fwCloseErr = none → env.s3BodyCloseErr = none →
      (Write w env editionID newMD5 t).1 = some r →
      strContains r.message editionID = true) ∧
    (∀ (w : S3DatabaseWriter) (editionID : String) (e : GoError) (ret : String)
       (r : GoError),
      (GetHash w (GetObjectOutcome.otherError e) editionID).1 = GetHashResult.err ret r →
      strContains r.message editionID = true) := by
  constructor
  · intro w env editionID newMD5 t r hpo hfwc hsbc hres
    have hfw : ∀ x, fwClose env x = x := by
      intro x; unfold fwClose; rw [hfwc]
    have hsb : ∀ x, s3BodyClose env x = x := by
      intro x; unfold s3BodyClose; rw [hsbc]
    cases hnfw : env.newFileWriterErr with
    | some e =>
      simp only [Write, hnfw] at hres
      exact mention_readerClose_some _ _ _ _ hres (mention_wrap_ctx _ _ _)
    | none =>
      cases hfww : env.fwWriteErr with
      | some e =>
        simp only [Write, hnfw, hfww, hfw] at hres
        exact mention_readerClose_some _ _ _ _ hres (mention_wrap_ctx _ _ _)
      | none =>
        cases hv : validateHash env.stagedHash newMD5 with
        | some e =>
          simp only [Write, hnfw, hfww, hv, hfw] at hres
          exact mention_readerClose_some _ _ _ _ hres (mention_wrap_ctx _ _ _)
        | none =>
          cases hote : env.openTempErr with
          | some e =>
            simp only [Write, hnfw, hfww, hv, hote, hfw] at hres
            exact mention_readerClose_some _ _ _ _ hres (mention_wrap_ctx _ _ _)
          | none =>
            simp only [Write, hnfw, hfww, hv, hote, hpo, hfw, hsb] at hres
            exact mention_readerClose_none _ _ _ hres
  · intro w editionID e ret r hres
    cases hres
    show strContains
      ((((("failed to Get Object " ++ (editionID ++ extension)) ++ " in bucket ")
          ++ w.s3Bucket) ++ ": ") ++ e.message) editionID = true
    refine strContains_append_left _ _ _ ?_
    refine strContains_append_left _ _ _ ?_
    refine strContains_append_left _ _ _ ?_
    refine strContains_append_left _ _ _ ?_
    refine strContains_append_right _ _ _ ?_
    exact strContains_append_left _ _ _ (strContains_self editionID)

/-- Witness for the amended C9: a staging-write failure produces an error
whose message mentions the edition identifier. -/
theorem write_nonupload_errors_mention_edition_witness :
    strContains
      (GoError.message (GoError.wrap ("writing to the temp file for " ++ "GeoLite2-City")
        (GoError.base "disk full")))
      "GeoLite2-City" = true :=
  write_nonupload_errors_mention_edition.1 ⟨"bucket", false, false⟩
    { fwWriteErr := some (GoError.base "disk full") } "GeoLite2-City" "abc" 0 _
    rfl rfl rfl rfl

/-- Claim C10: a successful GetObject response whose ETag pointer is nil makes
GetHash panic through the unchecked dereference. -/
theorem getHash_panics_on_missing_etag
    (w : S3DatabaseWriter) (editionID : String) :
    (GetHash w (GetObjectOutcome.success none) editionID).1 = GetHashResult.panic :=
  rfl

end S3Writer
